import Mathlib

/-!
Verification of the GLB → OBJ transcoding engine of image2asset.

The definitions below are a shallow embedding of the server-side converter
(`convertGLBtoOBJ` / `exportToOBJ` / `generateMTLMaterial` in
lib/converters/gltfTransformConverter.ts) and of the mesh-compression
utilities (`COMPRESSION_TIERS` in lib/utils/estimationUtils.ts and
`compressMesh` in lib/utils/compressionUtils.ts).

Modelling conventions:
* JavaScript numbers are modelled as rationals (ℚ); the claims under
  verification are about exact index arithmetic and exact factor values,
  never about floating-point rounding.
* The emitted OBJ/MTL text buffers are modelled as lists of line records
  (`ObjLine`, `MtlLine`), one record per emitted text line; the blank
  separator lines of the source contribute no record.  Each slash-delimited
  face slot of the source template literals is a separate field of the
  corresponding face constructor, exactly as the source writes each slot.
* Object references into the document (materials, textures) are modelled
  as indices into the document lists, which is what the source computes
  from them via `listMaterials().indexOf` / `listTextures().indexOf`.
* The external gltf-transform `document.transform(weld(...))` /
  `document.transform(simplify(...))` calls are modelled by an oracle
  `tr : TransformSpec → Document → Except String Document`; an `error`
  result models the transform throwing.  In-place mutation is modelled by
  explicit value passing.
-/

namespace Image2Asset

/-- A 2-component vector (texture coordinate). -/
structure Vec2 where
  u : ℚ
  v : ℚ
deriving DecidableEq

/-- A 3-component vector (position / normal). -/
structure Vec3 where
  x : ℚ
  y : ℚ
  z : ℚ
deriving DecidableEq

/-- An RGBA colour factor. -/
structure RGBA where
  r : ℚ
  g : ℚ
  b : ℚ
  a : ℚ
deriving DecidableEq

/-- An RGB colour factor. -/
structure RGB where
  r : ℚ
  g : ℚ
  b : ℚ
deriving DecidableEq

/-- A texture of the parsed document: `getImage()` (raw encoded bytes, or
null) and `getMimeType()`. -/
structure Texture where
  image : Option (List ℕ)
  mimeType : String
deriving DecidableEq

/-- A material of the parsed document.  The factor getters of the source
may return null (modelled as `none`); the `?? default` fallbacks of
`generateMTLMaterial` are applied there, as in the source.  Texture slots
hold the index of the referenced texture in the document texture list
(the value `documentTextureIndex` computes in the source), or `none` when
the getter returns null. -/
structure Material where
  baseColorFactor : Option RGBA
  metallicFactor : Option ℚ
  roughnessFactor : Option ℚ
  emissiveFactor : Option RGB
  baseColorTexture : Option ℕ
  normalTexture : Option ℕ
  metallicRoughnessTexture : Option ℕ
  emissiveTexture : Option ℕ
  occlusionTexture : Option ℕ
deriving DecidableEq

/-- A mesh primitive: optional material reference (index into the document
material list), optional POSITION / TEXCOORD_0 / NORMAL attributes and an
optional index buffer. -/
structure Primitive where
  material : Option ℕ
  positions : Option (List Vec3)
  texcoords : Option (List Vec2)
  normals : Option (List Vec3)
  indices : Option (List ℕ)
deriving DecidableEq

/-- A mesh: a list of primitives. -/
structure Mesh where
  primitives : List Primitive
deriving DecidableEq

/-- The parsed in-memory document: texture, material and mesh lists, in
document order. -/
structure Document where
  textures : List Texture
  materials : List Material
  meshes : List Mesh
deriving DecidableEq

/-- One emitted OBJ line.  Face constructors carry one field per
slash-delimited slot of the source template literal:
`fP a b c` is `f a b c`, `fPT v1 t1 v2 t2 v3 t3` is `f v1/t1 v2/t2 v3/t3`,
`fPN v1 n1 v2 n2 v3 n3` is `f v1//n1 v2//n2 v3//n3`, and
`fPTN v1 t1 n1 ...` is `f v1/t1/n1 v2/t2/n2 v3/t3/n3`. -/
inductive ObjLine where
  | comment (s : String)
  | mtllib (s : String)
  | usemtl (s : String)
  | v (x y z : ℚ)
  | vt (u w : ℚ)
  | vn (x y z : ℚ)
  | fP (a b c : ℕ)
  | fPT (v1 t1 v2 t2 v3 t3 : ℕ)
  | fPN (v1 n1 v2 n2 v3 n3 : ℕ)
  | fPTN (v1 t1 n1 v2 t2 n2 v3 t3 n3 : ℕ)
deriving DecidableEq

/-- One emitted MTL line. -/
inductive MtlLine where
  | newmtl (s : String)
  | ka (r g b : ℚ)
  | kd (r g b : ℚ)
  | ks (r g b : ℚ)
  | ns (x : ℚ)
  | d (x : ℚ)
  | ke (r g b : ℚ)
  | illum (n : ℕ)
  | map_Kd (s : String)
  | map_Bump (s : String)
  | map_Pm (s : String)
  | map_Pr (s : String)
  | map_Ke (s : String)
  | map_Ka (s : String)
deriving DecidableEq

/-- File extension derived from the stored MIME type
(`image/jpeg` → jpg, `image/webp` → webp, default png). -/
def texExtension (mime : String) : String :=
  if mime = "image/jpeg" then "jpg"
  else if mime = "image/webp" then "webp"
  else "png"

/-- Generated texture filename: `texture_<index>.<ext>`. -/
def textureName (i : ℕ) (t : Texture) : String :=
  "texture_" ++ toString i ++ "." ++ texExtension t.mimeType

/-- The texture-extraction loop of `exportToOBJ`, producing the
filename → raw-bytes entries: every texture whose `getImage()` is non-null
contributes one entry; the loop performs no material-reference check. -/
def texEntries (i : ℕ) : List Texture → List (String × List ℕ)
  | [] => []
  | t :: ts =>
    (match t.image with
     | some img => [(textureName i t, img)]
     | none => []) ++ texEntries (i + 1) ts

/-- The texture-extraction loop of `exportToOBJ`, producing the
`textureMap` (texture index → generated filename) used by
`generateMTLMaterial`; a texture gets a name exactly when it has an
image. -/
def texNameEntries (i : ℕ) : List Texture → List (ℕ × String)
  | [] => []
  | t :: ts =>
    (match t.image with
     | some _ => [(i, textureName i t)]
     | none => []) ++ texNameEntries (i + 1) ts

/-- The `textureMap` of `exportToOBJ`. -/
def buildTextureMap (ts : List Texture) : List (ℕ × String) :=
  texNameEntries 0 ts

/-- Association-list lookup, modelling `Map.has` / `Map.get` on the
integer-keyed maps of the source. -/
def lookupIdx (l : List (ℕ × String)) (k : ℕ) : Option String :=
  (l.find? fun p => p.1 == k).map fun p => p.2

/-- One texture-slot section of `generateMTLMaterial`: the source checks
that the material getter returned a texture, that `documentTextureIndex`
found it and that `textureMap` has an entry for it, then appends the map
line(s) built by `mk` from the generated filename. -/
def slotLines (slot : Option ℕ) (tm : List (ℕ × String))
    (mk : String → List MtlLine) : List MtlLine :=
  match slot with
  | none => []
  | some ti =>
    match lookupIdx tm ti with
    | none => []
    | some nm => mk nm

/-- Function `generateMTLMaterial` of the source: one MTL block per material. -/
def generateMTLMaterial (m : Material) (matIndex : ℕ)
    (tm : List (ℕ × String)) : List MtlLine :=
  let bcf := m.baseColorFactor.getD ⟨1, 1, 1, 1⟩
  let metallic := m.metallicFactor.getD 0
  let rough := m.roughnessFactor.getD 1
  let emissive := m.emissiveFactor.getD ⟨0, 0, 0⟩
  [MtlLine.newmtl ("material_" ++ toString matIndex),
   MtlLine.ka bcf.r bcf.g bcf.b,
   MtlLine.kd bcf.r bcf.g bcf.b,
   MtlLine.ks metallic metallic metallic,
   MtlLine.ns ((1 - rough) * 128)]
  ++ (if bcf.a < 1 then [MtlLine.d bcf.a] else [])
  ++ (if emissive.r > 0 ∨ emissive.g > 0 ∨ emissive.b > 0 then
        [MtlLine.ke emissive.r emissive.g emissive.b]
      else [])
  ++ [MtlLine.illum 2]
  ++ slotLines m.baseColorTexture tm (fun n => [MtlLine.map_Kd n])
  ++ slotLines m.normalTexture tm (fun n => [MtlLine.map_Bump n])
  ++ slotLines m.metallicRoughnessTexture tm
       (fun n => [MtlLine.map_Pm n, MtlLine.map_Pr n])
  ++ slotLines m.emissiveTexture tm (fun n => [MtlLine.map_Ke n])
  ++ slotLines m.occlusionTexture tm (fun n => [MtlLine.map_Ka n])

/-- The face-line branch shared by the indexed and the non-indexed loops:
the encoding is chosen from the presence of the TEXCOORD_0 / NORMAL
attributes, and the source writes the same offset index into every slot of
a corner (`f v1/v1/v1 ...`). -/
def faceLine (hasT hasN : Bool) (v1 v2 v3 : ℕ) : ObjLine :=
  if hasT && hasN then ObjLine.fPTN v1 v1 v1 v2 v2 v2 v3 v3 v3
  else if hasT then ObjLine.fPT v1 v1 v2 v2 v3 v3
  else if hasN then ObjLine.fPN v1 v1 v2 v2 v3 v3
  else ObjLine.fP v1 v2 v3

/-- Consecutive triples of the index buffer, as consumed by the
`for (i = 0; i < length; i += 3)` loop.  (A trailing partial group would
read past the array in the source; the index-buffer invariant — length a
multiple of 3 — rules it out.) -/
def chunk3 : List ℕ → List (ℕ × ℕ × ℕ)
  | a :: b :: c :: rest => (a, b, c) :: chunk3 rest
  | _ => []

/-- The `usemtl` directive of the primitive body: written whenever the
primitive references a material, using the name already registered in
`materialMap` or the fresh deterministic name otherwise. -/
def usemtlSection (mm : List (ℕ × String)) (mo : Option ℕ) : List ObjLine :=
  match mo with
  | some i =>
    [ObjLine.usemtl
      (match lookupIdx mm i with
       | some nm => nm
       | none => "material_" ++ toString i)]
  | none => []

/-- The vertex-position lines of the primitive body. -/
def vSection (ps : List Vec3) : List ObjLine :=
  ps.map fun q => ObjLine.v q.x q.y q.z

/-- The texture-coordinate lines: one per source coordinate, U unchanged
and V flipped to `1 − v` ("Flip V coordinate for OBJ"). -/
def vtSection (tso : Option (List Vec2)) : List ObjLine :=
  match tso with
  | some ts => ts.map fun t => ObjLine.vt t.u (1 - t.v)
  | none => []

/-- The normal lines of the primitive body. -/
def vnSection (nso : Option (List Vec3)) : List ObjLine :=
  match nso with
  | some nl => nl.map fun n => ObjLine.vn n.x n.y n.z
  | none => []

/-- The face lines of the primitive body: triples of the index buffer
offset by `+ 1 + vertexOffset` when indexed, otherwise sequential triples
`vertexOffset + i + 1..3` for `i = 0, 3, ...` below the vertex count. -/
def faceSection (hT hN : Bool) (off : ℕ) (io : Option (List ℕ))
    (len : ℕ) : List ObjLine :=
  match io with
  | some idx =>
    (chunk3 idx).map fun t =>
      faceLine hT hN (t.1 + 1 + off) (t.2.1 + 1 + off) (t.2.2 + 1 + off)
  | none =>
    (List.range ((len + 2) / 3)).map fun k =>
      faceLine hT hN (off + 3 * k + 1) (off + 3 * k + 2) (off + 3 * k + 3)

/-- All OBJ lines emitted by `exportToOBJ` for one primitive, given the
current `materialMap` and the running global `vertexOffset`.  Mirrors the
primitive body of the mesh loop: material directive first, then (only
when POSITION is present — otherwise the source `continue`s) the vertex,
texcoord, normal and face lines. -/
def primObjLines (mm : List (ℕ × String)) (off : ℕ) (p : Primitive) :
    List ObjLine :=
  usemtlSection mm p.material ++
  match p.positions with
  | none => []
  | some ps =>
    vSection ps ++ vtSection p.texcoords ++ vnSection p.normals
    ++ faceSection p.texcoords.isSome p.normals.isSome off p.indices
         ps.length

/-- The MTL block appended while processing one primitive: only when the
primitive references a material that is not yet in `materialMap`. -/
def primMtlLines (doc : Document) (mm : List (ℕ × String)) (p : Primitive) :
    List MtlLine :=
  match p.material with
  | none => []
  | some i =>
    match lookupIdx mm i with
    | some _ => []
    | none =>
      match doc.materials.get? i with
      | some m => generateMTLMaterial m i (buildTextureMap doc.textures)
      | none => []

/-- The `materialMap` update while processing one primitive. -/
def updateMaterialMap (mm : List (ℕ × String)) (p : Primitive) :
    List (ℕ × String) :=
  match p.material with
  | none => mm
  | some i =>
    match lookupIdx mm i with
    | some _ => mm
    | none => mm ++ [(i, "material_" ++ toString i)]

/-- The vertex count a primitive contributes to the running offset:
`position.getCount()`, or 0 for a skipped (position-less) primitive. -/
def vcount (p : Primitive) : ℕ :=
  match p.positions with
  | some ps => ps.length
  | none => 0

/-- The mutable state of the `exportToOBJ` loop.  `texCoordOffset` and
`normalOffset` are declared by the source alongside `vertexOffset` but are
never advanced nor read. -/
structure EmitState where
  obj : List ObjLine
  mtl : List MtlLine
  materialMap : List (ℕ × String)
  vertexOffset : ℕ
  texCoordOffset : ℕ
  normalOffset : ℕ
deriving DecidableEq

/-- Processing of one primitive by the `exportToOBJ` loop. -/
def emitPrim (doc : Document) (st : EmitState) (p : Primitive) : EmitState :=
  { obj := st.obj ++ primObjLines st.materialMap st.vertexOffset p
    mtl := st.mtl ++ primMtlLines doc st.materialMap p
    materialMap := updateMaterialMap st.materialMap p
    vertexOffset := st.vertexOffset + vcount p
    texCoordOffset := st.texCoordOffset
    normalOffset := st.normalOffset }

/-- The primitives of the document in mesh order then primitive order, as
visited by the two nested loops. -/
def docPrims (doc : Document) : List Primitive :=
  (doc.meshes.map Mesh.primitives).flatten

/-- The OBJ header written before the mesh loop. -/
def headerLines : List ObjLine :=
  [ObjLine.comment "OBJ file exported by gltf-transform",
   ObjLine.mtllib "model.mtl"]

/-- Initial state of the `exportToOBJ` loop. -/
def initState : EmitState :=
  { obj := headerLines
    mtl := []
    materialMap := []
    vertexOffset := 0
    texCoordOffset := 0
    normalOffset := 0 }

/-- The final state of the `exportToOBJ` loop. -/
def exportState (doc : Document) : EmitState :=
  (docPrims doc).foldl (emitPrim doc) initState

/-- The three-part conversion output: OBJ lines, MTL lines and the
filename → raw-bytes texture entries.  (The source stores each entry as
`{name, data}` under its own name as key; the duplicated name is dropped
here.) -/
structure ConvertedModel where
  obj : List ObjLine
  mtl : List MtlLine
  textures : List (String × List ℕ)
deriving DecidableEq

/-- Function `exportToOBJ` of the source. -/
def exportToOBJ (doc : Document) : ConvertedModel :=
  { obj := (exportState doc).obj
    mtl := (exportState doc).mtl
    textures := texEntries 0 doc.textures }

/-- The `type` tag of a `ConversionError` (`export` is a Lean keyword, so
that tag is named `exportErr` here). -/
inductive ConvErrType where
  | load
  | parse
  | exportErr
  | zip
deriving DecidableEq

/-- The `ConversionError` shape of the source. -/
structure ConversionError where
  type : ConvErrType
  message : String
  details : Option String
deriving DecidableEq

/-- Function `convertGLBtoOBJ` of the source converter as present under src: the
whole body sits in one try/catch whose catch rethrows
a record with type tag export, message Failed to convert GLB to OBJ and
every failure, including a `readBinary` failure on a malformed container.
The external `io.readBinary` parser is the `readBinary` oracle; an
`error` result models it throwing (bad magic, truncated, unsupported
version), carrying the underlying message. -/
def convertGLBtoOBJ (readBinary : List ℕ → Except String Document)
    (buf : List ℕ) : Except ConversionError ConvertedModel :=
  match readBinary buf with
  | Except.error e =>
    Except.error ⟨ConvErrType.exportErr, "Failed to convert GLB to OBJ", some e⟩
  | Except.ok doc => Except.ok (exportToOBJ doc)

/-- The compression level (lib/utils/estimationUtils.ts). -/
inductive CompressionLevel where
  | full
  | compressed
  | ultra
deriving DecidableEq

/-- One compression tier (the `estimatedRatio` field of the source is
named `estimatedFactor` here; the ultra badge string carries a leading
crown emoji in the source, elided here). -/
structure CompressionTier where
  level : CompressionLevel
  label : String
  decimation : ℚ
  estimatedFactor : ℚ
  badge : Option String
  premiumRequired : Bool
deriving DecidableEq

/-- Constant `COMPRESSION_TIERS` of the source. -/
def COMPRESSION_TIERS : CompressionLevel → CompressionTier
  | CompressionLevel.full =>
    ⟨CompressionLevel.full, "Full Quality", 0, 5, none, false⟩
  | CompressionLevel.compressed =>
    ⟨CompressionLevel.compressed, "Compressed", 6/10, 2, none, false⟩
  | CompressionLevel.ultra =>
    ⟨CompressionLevel.ultra, "Ultra Compressed", 85/100, 3/4, some "Premium", true⟩

/-- A transform passed to `document.transform(...)`: `weld({tolerance})`
or `simplify({simplifier, ratio, error})`. -/
inductive TransformSpec where
  | weld (tolerance : ℚ)
  | simplify (keep : ℚ) (err : ℚ)
deriving DecidableEq

/-- Function `compressMesh` of lib/utils/compressionUtils.ts, over a transform
oracle `tr` (an `error` result models the transform throwing).  Returns
the resulting document together with the list of transforms that were
applied successfully, in order.  Mirrors the source exactly: a zero
`decimation` short-circuits; otherwise weld with tolerance 0.0001, then
simplify with ratio `1 - decimation` and error 0.001; the catch returns
the document in its current (possibly already welded) state. -/
def compressMesh (tr : TransformSpec → Document → Except String Document)
    (level : CompressionLevel) (doc : Document) :
    Document × List TransformSpec :=
  let tier := COMPRESSION_TIERS level
  if tier.decimation = 0 then (doc, [])
  else
    match tr (TransformSpec.weld (1/10000)) doc with
    | Except.error _ => (doc, [])
    | Except.ok d1 =>
      match tr (TransformSpec.simplify (1 - tier.decimation) (1/1000)) d1 with
      | Except.error _ => (d1, [TransformSpec.weld (1/10000)])
      | Except.ok d2 =>
        (d2, [TransformSpec.weld (1/10000),
              TransformSpec.simplify (1 - tier.decimation) (1/1000)])

/-- Modelled from the spec: the compression-aware conversion entry point
`convertGLBtoOBJ(glbPath, compressionLevel)` of
lib/converters/gltfTransformConverter.ts is imported by
src/app/api/convert-obj/route.ts but the compression-aware version of that
module is not present under src (only a pre-compression copy of it is).
Per the spec control flow — Loader → (optional) Simplifier → Geometry
Emitter — and its simplifier contract, the entry point parses the buffer,
applies `compressMesh` with the requested preset when the level is not
`full`, and feeds the (possibly simplified) document to the geometry
emitter; load failures surface as in the present copy. -/
def convertWithCompression
    (tr : TransformSpec → Document → Except String Document)
    (readBinary : List ℕ → Except String Document)
    (buf : List ℕ) (level : CompressionLevel) :
    Except ConversionError ConvertedModel :=
  match readBinary buf with
  | Except.error e =>
    Except.error ⟨ConvErrType.exportErr, "Failed to convert GLB to OBJ", some e⟩
  | Except.ok doc =>
    let doc2 :=
      if level = CompressionLevel.full then doc
      else (compressMesh tr level doc).1
    Except.ok (exportToOBJ doc2)

/-- Faces a primitive contributes: index-buffer triples when indexed,
otherwise one face per started sequential triple. -/
def fcount (p : Primitive) : ℕ :=
  match p.positions with
  | none => 0
  | some ps =>
    match p.indices with
    | some idx => (chunk3 idx).length
    | none => (ps.length + 2) / 3

/-- Total vertex count of a document. -/
def docVertexCount (doc : Document) : ℕ :=
  ((docPrims doc).map vcount).sum

/-- Total face count of a document. -/
def docFaceCount (doc : Document) : ℕ :=
  ((docPrims doc).map fcount).sum

/-! ### Line discriminators -/

/-- Is this an `Ks` (specular colour) line? -/
def isKsLine : MtlLine → Bool
  | MtlLine.ks _ _ _ => true
  | _ => false

/-- Is this an `Ns` (shininess) line? -/
def isNsLine : MtlLine → Bool
  | MtlLine.ns _ => true
  | _ => false

/-- Is this a `d` (opacity) line? -/
def isDLine : MtlLine → Bool
  | MtlLine.d _ => true
  | _ => false

/-- Is this a `map_Pm` (metalness map) or `map_Pr` (roughness map) line? -/
def isPmPrLine : MtlLine → Bool
  | MtlLine.map_Pm _ => true
  | MtlLine.map_Pr _ => true
  | _ => false

/-- Is this a `vt` (texture coordinate) line? -/
def isVtLine : ObjLine → Bool
  | ObjLine.vt _ _ => true
  | _ => false

/-- A texture-slot section contributes nothing to a filter that rejects
every line the section can produce. -/
theorem slotLines_filter (p : MtlLine → Bool) (slot : Option ℕ)
    (tm : List (ℕ × String)) (mk : String → List MtlLine)
    (h : ∀ nm, List.filter p (mk nm) = []) :
    List.filter p (slotLines slot tm mk) = [] := by
  cases slot with
  | none => rfl
  | some ti =>
    simp only [slotLines]
    cases lookupIdx tm ti with
    | none => rfl
    | some nm => exact h nm

/-- C5: in every generated MTL block the specular colour line is the
metallic factor repeated three times, the shininess line is
`(1 − roughness) × 128`, and an opacity line with value `baseColorFactor.a`
is present exactly when that alpha is strictly below 1 (with the source
fallbacks metallic = 0, roughness = 1, baseColorFactor = (1,1,1,1) when
the getters return null). -/
theorem mtl_specular_shininess_opacity (m : Material) (i : ℕ)
    (tm : List (ℕ × String)) :
    (generateMTLMaterial m i tm).filter isKsLine
      = [MtlLine.ks (m.metallicFactor.getD 0) (m.metallicFactor.getD 0)
           (m.metallicFactor.getD 0)]
    ∧ (generateMTLMaterial m i tm).filter isNsLine
      = [MtlLine.ns ((1 - m.roughnessFactor.getD 1) * 128)]
    ∧ (generateMTLMaterial m i tm).filter isDLine
      = (if (m.baseColorFactor.getD ⟨1, 1, 1, 1⟩).a < 1
         then [MtlLine.d ((m.baseColorFactor.getD ⟨1, 1, 1, 1⟩).a)]
         else []) := by
  have hs : ∀ (p : MtlLine → Bool) (slot : Option ℕ)
      (mk : String → List MtlLine), (∀ nm, List.filter p (mk nm) = []) →
      List.filter p (slotLines slot tm mk) = [] :=
    fun p slot mk h => slotLines_filter p slot tm mk h
  refine ⟨?_, ?_, ?_⟩
  · simp only [generateMTLMaterial, List.filter_append]
    rw [hs isKsLine m.baseColorTexture (fun n => [MtlLine.map_Kd n]) (fun _ => rfl),
        hs isKsLine m.normalTexture (fun n => [MtlLine.map_Bump n]) (fun _ => rfl),
        hs isKsLine m.metallicRoughnessTexture (fun n => [MtlLine.map_Pm n, MtlLine.map_Pr n]) (fun _ => rfl),
        hs isKsLine m.emissiveTexture (fun n => [MtlLine.map_Ke n]) (fun _ => rfl),
        hs isKsLine m.occlusionTexture (fun n => [MtlLine.map_Ka n]) (fun _ => rfl)]
    split_ifs <;> rfl
  · simp only [generateMTLMaterial, List.filter_append]
    rw [hs isNsLine m.baseColorTexture (fun n => [MtlLine.map_Kd n]) (fun _ => rfl),
        hs isNsLine m.normalTexture (fun n => [MtlLine.map_Bump n]) (fun _ => rfl),
        hs isNsLine m.metallicRoughnessTexture (fun n => [MtlLine.map_Pm n, MtlLine.map_Pr n]) (fun _ => rfl),
        hs isNsLine m.emissiveTexture (fun n => [MtlLine.map_Ke n]) (fun _ => rfl),
        hs isNsLine m.occlusionTexture (fun n => [MtlLine.map_Ka n]) (fun _ => rfl)]
    split_ifs <;> rfl
  · simp only [generateMTLMaterial, List.filter_append]
    rw [hs isDLine m.baseColorTexture (fun n => [MtlLine.map_Kd n]) (fun _ => rfl),
        hs isDLine m.normalTexture (fun n => [MtlLine.map_Bump n]) (fun _ => rfl),
        hs isDLine m.metallicRoughnessTexture (fun n => [MtlLine.map_Pm n, MtlLine.map_Pr n]) (fun _ => rfl),
        hs isDLine m.emissiveTexture (fun n => [MtlLine.map_Ke n]) (fun _ => rfl),
        hs isDLine m.occlusionTexture (fun n => [MtlLine.map_Ka n]) (fun _ => rfl)]
    split_ifs <;> rfl

/-- C8: a material whose metallic-roughness texture has an extracted image
(an entry in the texture map) yields exactly two metalness/roughness map
lines, one `map_Pm` and one `map_Pr`, both referencing the same generated
filename. -/
theorem mtl_metallic_roughness_dual (m : Material) (i : ℕ)
    (tm : List (ℕ × String)) (ti : ℕ) (nm : String)
    (h1 : m.metallicRoughnessTexture = some ti)
    (h2 : lookupIdx tm ti = some nm) :
    (generateMTLMaterial m i tm).filter isPmPrLine
      = [MtlLine.map_Pm nm, MtlLine.map_Pr nm] := by
  simp only [generateMTLMaterial, List.filter_append]
  rw [slotLines_filter isPmPrLine m.baseColorTexture tm (fun n => [MtlLine.map_Kd n]) (fun _ => rfl),
      slotLines_filter isPmPrLine m.normalTexture tm (fun n => [MtlLine.map_Bump n]) (fun _ => rfl),
      slotLines_filter isPmPrLine m.emissiveTexture tm (fun n => [MtlLine.map_Ke n]) (fun _ => rfl),
      slotLines_filter isPmPrLine m.occlusionTexture tm (fun n => [MtlLine.map_Ka n]) (fun _ => rfl)]
  simp only [slotLines, h1, h2]
  split_ifs <;> rfl

/-- Example material with a metallic-roughness texture at index 0. -/
def matC8 : Material :=
  { baseColorFactor := some ⟨1/2, 1/2, 1/2, 1⟩
    metallicFactor := some (1/4)
    roughnessFactor := some (1/2)
    emissiveFactor := none
    baseColorTexture := none
    normalTexture := none
    metallicRoughnessTexture := some 0
    emissiveTexture := none
    occlusionTexture := none }

/-- Witness for C8 at a concrete material and texture map. -/
theorem mtl_metallic_roughness_dual_witness :
    matC8.metallicRoughnessTexture = some 0
    ∧ lookupIdx [(0, "texture_0.png")] 0 = some "texture_0.png"
    ∧ (generateMTLMaterial matC8 0 [(0, "texture_0.png")]).filter isPmPrLine
        = [MtlLine.map_Pm "texture_0.png", MtlLine.map_Pr "texture_0.png"] :=
  ⟨rfl, rfl,
    mtl_metallic_roughness_dual matC8 0 [(0, "texture_0.png")] 0
      "texture_0.png" rfl rfl⟩

/-! ### Error tagging of the conversion entry point (C3) -/

/-- A parser oracle that fails on every buffer, modelling `io.readBinary`
throwing on a malformed container (bad magic / truncated / unsupported
version). -/
def badReadBinary : List ℕ → Except String Document :=
  fun _ => Except.error "Invalid GLB header"

/-- C3 counterexample: on a malformed buffer the entry point fails with
type tag `export`, not `load` — the single try/catch of the source tags
every failure, including parser failures, as `export`. -/
theorem load_error_tag_counterexample :
    convertGLBtoOBJ badReadBinary [0]
      = Except.error ⟨ConvErrType.exportErr,
          "Failed to convert GLB to OBJ", some "Invalid GLB header"⟩
    ∧ ConvErrType.exportErr ≠ ConvErrType.load :=
  ⟨rfl, by decide⟩

/-- C3 amended: whenever the binary parser fails, the entry point fails
with a typed error whose tag is `export` (message
"Failed to convert GLB to OBJ"), preserving the underlying cause in
`details`; the declared `load` tag is never produced. -/
theorem load_failure_tagged_export
    (rb : List ℕ → Except String Document) (buf : List ℕ) (e : String)
    (h : rb buf = Except.error e) :
    convertGLBtoOBJ rb buf
      = Except.error ⟨ConvErrType.exportErr,
          "Failed to convert GLB to OBJ", some e⟩ := by
  simp [convertGLBtoOBJ, h]

/-- Witness for the amended C3 at a concrete failing parser. -/
theorem load_failure_tagged_export_witness :
    badReadBinary [0] = Except.error "Invalid GLB header"
    ∧ convertGLBtoOBJ badReadBinary [0]
        = Except.error ⟨ConvErrType.exportErr,
            "Failed to convert GLB to OBJ", some "Invalid GLB header"⟩ :=
  ⟨rfl, load_failure_tagged_export badReadBinary [0] "Invalid GLB header" rfl⟩

/-! ### The simplification stage (C9, C4, C2) -/

/-- C9: at the `full` preset (decimation 0, keep ratio 1.0) the
simplification stage is the identity: the same document is returned, no
transform (weld or simplify) is applied, and vertex and face counts are
unchanged. -/
theorem compressMesh_full_identity
    (tr : TransformSpec → Document → Except String Document)
    (doc : Document) :
    compressMesh tr CompressionLevel.full doc = (doc, [])
    ∧ docVertexCount (compressMesh tr CompressionLevel.full doc).1
        = docVertexCount doc
    ∧ docFaceCount (compressMesh tr CompressionLevel.full doc).1
        = docFaceCount doc := by
  have h : compressMesh tr CompressionLevel.full doc = (doc, []) := by
    simp [compressMesh, COMPRESSION_TIERS]
  exact ⟨h, by rw [h], by rw [h]⟩

/-- A primitive with a duplicated vertex, input of the C4 scenario. -/
def primDup : Primitive :=
  { material := none
    positions := some [⟨0, 0, 0⟩, ⟨0, 0, 0⟩, ⟨1, 0, 0⟩]
    texcoords := none
    normals := none
    indices := some [0, 1, 2] }

/-- Document before compression in the C4 scenario. -/
def docOrig : Document := ⟨[], [], [⟨[primDup]⟩]⟩

/-- The same document after a successful weld merged the duplicated
vertex. -/
def docWelded : Document :=
  ⟨[], [],
   [⟨[{ material := none
        positions := some [⟨0, 0, 0⟩, ⟨1, 0, 0⟩]
        texcoords := none
        normals := none
        indices := some [0, 0, 1] }]⟩]⟩

/-- A transform oracle whose weld succeeds (merging the duplicate vertex)
and whose simplify throws. -/
def trSimplifyFails : TransformSpec → Document → Except String Document
  | TransformSpec.weld _, _ => Except.ok docWelded
  | TransformSpec.simplify _ _, _ => Except.error "Unable to simplify"

/-- C4 counterexample: when the simplify transform throws after a
successful weld, `compressMesh` returns the welded document, which is not
byte-for-byte the pre-simplification input — `document.transform(weld)`
mutated it in place before the failure. -/
theorem simplifier_failure_counterexample :
    (compressMesh trSimplifyFails CompressionLevel.compressed docOrig).1
      = docWelded
    ∧ docWelded ≠ docOrig := by
  constructor
  · have hd : (COMPRESSION_TIERS CompressionLevel.compressed).decimation ≠ 0 := by
      norm_num [COMPRESSION_TIERS]
    simp only [compressMesh, if_neg hd, trSimplifyFails]
  · decide

/-- C4 amended: the simplification stage never propagates an internal
failure (it is a total function into `Document`).  If the weld transform
throws, the document is returned unmodified; if simplify throws after a
successful weld, the returned document is the welded one (duplicate
vertices merged, no simplification).  In either case the conversion
proceeds and produces an output emitted from the returned document. -/
theorem simplifier_failure_safety
    (tr : TransformSpec → Document → Except String Document)
    (level : CompressionLevel) (doc : Document) :
    (∀ e, tr (TransformSpec.weld (1/10000)) doc = Except.error e →
      compressMesh tr level doc = (doc, []))
    ∧ (∀ w e, (COMPRESSION_TIERS level).decimation ≠ 0 →
        tr (TransformSpec.weld (1/10000)) doc = Except.ok w →
        tr (TransformSpec.simplify
             (1 - (COMPRESSION_TIERS level).decimation) (1/1000)) w
          = Except.error e →
        compressMesh tr level doc = (w, [TransformSpec.weld (1/10000)]))
    ∧ (∀ rb buf, rb buf = Except.ok doc →
        convertWithCompression tr rb buf level
          = Except.ok (exportToOBJ
              (if level = CompressionLevel.full then doc
               else (compressMesh tr level doc).1))) := by
  refine ⟨?_, ?_, ?_⟩
  · intro e he
    by_cases hd : (COMPRESSION_TIERS level).decimation = 0
    · simp only [compressMesh, if_pos hd]
    · simp only [compressMesh, if_neg hd, he]
  · intro w e hd hw hs
    simp only [compressMesh, if_neg hd, hw, hs]
  · intro rb buf hb
    simp only [convertWithCompression, hb]

/-- A transform oracle whose weld throws. -/
def trWeldFails : TransformSpec → Document → Except String Document
  | TransformSpec.weld _, _ => Except.error "weld failed"
  | TransformSpec.simplify _ _, d => Except.ok d

/-- Witness for the amended C4: a failing weld at a concrete document
leaves the document untouched. -/
theorem simplifier_failure_safety_witness :
    trWeldFails (TransformSpec.weld (1/10000)) docOrig
      = Except.error "weld failed"
    ∧ compressMesh trWeldFails CompressionLevel.compressed docOrig
        = (docOrig, []) :=
  ⟨rfl,
    (simplifier_failure_safety trWeldFails CompressionLevel.compressed
      docOrig).1 "weld failed" rfl⟩

/-- C2: for the `compressed` and `ultra` presets the (spec-modelled)
entry point applies the simplification stage — weld with tolerance
0.0001, then simplify with the resolved keep ratio `1 − decimation`
(0.4 for `compressed`, 0.15 for `ultra`) and error bound 0.001 — to the
parsed document before the geometry emitter runs; for `full` no transform
is applied and the emitter runs on the parsed document. -/
theorem compression_presets_applied
    (tr : TransformSpec → Document → Except String Document)
    (rb : List ℕ → Except String Document) (buf : List ℕ)
    (doc w1 s1 s2 : Document)
    (hload : rb buf = Except.ok doc)
    (hw : tr (TransformSpec.weld (1/10000)) doc = Except.ok w1)
    (hs1 : tr (TransformSpec.simplify (2/5) (1/1000)) w1 = Except.ok s1)
    (hs2 : tr (TransformSpec.simplify (3/20) (1/1000)) w1 = Except.ok s2) :
    1 - (COMPRESSION_TIERS CompressionLevel.compressed).decimation = 2/5
    ∧ 1 - (COMPRESSION_TIERS CompressionLevel.ultra).decimation = 3/20
    ∧ compressMesh tr CompressionLevel.compressed doc
        = (s1, [TransformSpec.weld (1/10000),
                TransformSpec.simplify (2/5) (1/1000)])
    ∧ compressMesh tr CompressionLevel.ultra doc
        = (s2, [TransformSpec.weld (1/10000),
                TransformSpec.simplify (3/20) (1/1000)])
    ∧ convertWithCompression tr rb buf CompressionLevel.compressed
        = Except.ok (exportToOBJ s1)
    ∧ convertWithCompression tr rb buf CompressionLevel.ultra
        = Except.ok (exportToOBJ s2)
    ∧ convertWithCompression tr rb buf CompressionLevel.full
        = Except.ok (exportToOBJ doc)
    ∧ compressMesh tr CompressionLevel.full doc = (doc, []) := by
  have e1 : (1 : ℚ) - (COMPRESSION_TIERS CompressionLevel.compressed).decimation
      = 2/5 := by norm_num [COMPRESSION_TIERS]
  have e2 : (1 : ℚ) - (COMPRESSION_TIERS CompressionLevel.ultra).decimation
      = 3/20 := by norm_num [COMPRESSION_TIERS]
  have hc : compressMesh tr CompressionLevel.compressed doc
      = (s1, [TransformSpec.weld (1/10000),
              TransformSpec.simplify (2/5) (1/1000)]) := by
    have hd : (COMPRESSION_TIERS CompressionLevel.compressed).decimation ≠ 0 := by
      norm_num [COMPRESSION_TIERS]
    simp only [compressMesh, hd, if_neg hd, hw, e1, hs1]
    simp
  have hu : compressMesh tr CompressionLevel.ultra doc
      = (s2, [TransformSpec.weld (1/10000),
              TransformSpec.simplify (3/20) (1/1000)]) := by
    have hd : (COMPRESSION_TIERS CompressionLevel.ultra).decimation ≠ 0 := by
      norm_num [COMPRESSION_TIERS]
    simp only [compressMesh, hd, if_neg hd, hw, e2, hs2]
    simp
  have hf : compressMesh tr CompressionLevel.full doc = (doc, []) := by
    simp [compressMesh, COMPRESSION_TIERS]
  refine ⟨e1, e2, hc, hu, ?_, ?_, ?_, hf⟩
  · simp only [convertWithCompression, hload, hc]
    simp
  · simp only [convertWithCompression, hload, hu]
    simp
  · simp only [convertWithCompression, hload]
    simp

/-- Transform oracle that applies every transform as the identity. -/
def trId : TransformSpec → Document → Except String Document :=
  fun _ d => Except.ok d

/-- Parser oracle returning a fixed document. -/
def rbOrig : List ℕ → Except String Document :=
  fun _ => Except.ok docOrig

/-- Witness for C2 at concrete oracles. -/
theorem compression_presets_applied_witness :
    rbOrig [0] = Except.ok docOrig
    ∧ compressMesh trId CompressionLevel.compressed docOrig
        = (docOrig, [TransformSpec.weld (1/10000),
                     TransformSpec.simplify (2/5) (1/1000)])
    ∧ convertWithCompression trId rbOrig [0] CompressionLevel.full
        = Except.ok (exportToOBJ docOrig) :=
  ⟨rfl,
    (compression_presets_applied trId rbOrig [0] docOrig docOrig docOrig
      docOrig rfl rfl rfl rfl).2.2.1,
    (compression_presets_applied trId rbOrig [0] docOrig docOrig docOrig
      docOrig rfl rfl rfl rfl).2.2.2.2.2.2.1⟩

/-! ### Texture extraction (C6) -/

/-- Length of the extracted entries: one per image-bearing texture. -/
theorem texEntries_length (ts : List Texture) :
    ∀ j, (texEntries j ts).length
      = (ts.filter fun t => t.image.isSome).length := by
  induction ts with
  | nil => intro j; rfl
  | cons hd tl ih =>
    intro j
    cases h : hd.image <;>
      simp [texEntries, h, List.filter_cons, ih (j + 1)]

/-- Every image-bearing texture of the list is extracted under its
generated name. -/
theorem texEntries_mem (ts : List Texture) :
    ∀ (i j : ℕ) (t : Texture) (img : List ℕ),
      ts[j]? = some t → t.image = some img →
      (textureName (i + j) t, img) ∈ texEntries i ts := by
  induction ts with
  | nil => intro i j t img h; simp at h
  | cons hd tl ih =>
    intro i j t img h1 h2
    cases j with
    | zero =>
      simp at h1
      subst h1
      simp [texEntries, h2]
    | succ j2 =>
      simp at h1
      have hmem := ih (i + 1) j2 t img h1 h2
      have he : i + 1 + j2 = i + (j2 + 1) := by omega
      rw [he] at hmem
      exact List.mem_append_right _ hmem

/-- Unreferenced texture with an image, and a document with no materials
at all. -/
def texC6 : Texture := ⟨some [1, 2, 3], "image/png"⟩

/-- Document holding `texC6` and no materials: nothing references the
texture. -/
def docC6 : Document := ⟨[texC6], [], []⟩

/-- C6 counterexample: the texture from a document with no materials (so
it is referenced by none) is still extracted — it gets the generated name
`texture_0.png` and its bytes land in the output map.  The extraction
loop of the source iterates over all document textures with no
material-reference check. -/
theorem unreferenced_texture_counterexample :
    docC6.materials = []
    ∧ (exportToOBJ docC6).textures = [("texture_0.png", [1, 2, 3])] := by
  constructor
  · rfl
  · rfl

/-- C6 amended: extraction depends only on image presence, not on
material references — every texture with an image is assigned its
generated filename and its bytes appear in the output map (referenced or
not), and the number of extracted entries equals the number of
image-bearing textures (so imageless textures contribute nothing). -/
theorem texture_extraction_by_image (doc : Document) (i : ℕ) (t : Texture)
    (img : List ℕ) (h1 : doc.textures[i]? = some t)
    (h2 : t.image = some img) :
    (textureName i t, img) ∈ (exportToOBJ doc).textures
    ∧ (exportToOBJ doc).textures.length
        = (doc.textures.filter fun t2 => t2.image.isSome).length := by
  constructor
  · have := texEntries_mem doc.textures 0 i t img h1 h2
    simpa [exportToOBJ] using this
  · simp [exportToOBJ, texEntries_length]

/-- Witness for the amended C6 at the concrete document. -/
theorem texture_extraction_by_image_witness :
    docC6.textures[0]? = some texC6
    ∧ ((textureName 0 texC6, [1, 2, 3]) ∈ (exportToOBJ docC6).textures
       ∧ (exportToOBJ docC6).textures.length
           = (docC6.textures.filter fun t2 => t2.image.isSome).length) :=
  ⟨rfl, texture_extraction_by_image docC6 0 texC6 [1, 2, 3] rfl rfl⟩

/-! ### Texture-coordinate flip (C7) -/

/-- A map whose image a filter rejects contributes nothing. -/
theorem filter_false_map {α β : Type} (q : β → Bool) (f : α → β)
    (l : List α) (hf : ∀ a, q (f a) = false) : (l.map f).filter q = [] := by
  induction l with
  | nil => rfl
  | cons a tl ih => simp [List.filter_cons, hf, ih]

/-- A map whose image a filter accepts is preserved by the filter. -/
theorem filter_true_map {α β : Type} (q : β → Bool) (f : α → β)
    (l : List α) (hf : ∀ a, q (f a) = true) : (l.map f).filter q = l.map f := by
  induction l with
  | nil => rfl
  | cons a tl ih => simp [List.filter_cons, hf, ih]

/-- Function `faceLine` never builds a `vt` line. -/
theorem faceLine_not_vt (hT hN : Bool) (v1 v2 v3 : ℕ) :
    isVtLine (faceLine hT hN v1 v2 v3) = false := by
  cases hT <;> cases hN <;> rfl

/-- The `usemtl` section holds no `vt` line. -/
theorem usemtlSection_filter_vt (mm : List (ℕ × String)) (mo : Option ℕ) :
    (usemtlSection mm mo).filter isVtLine = [] := by
  cases mo <;> rfl

/-- The position section holds no `vt` line. -/
theorem vSection_filter_vt (ps : List Vec3) :
    (vSection ps).filter isVtLine = [] :=
  filter_false_map _ _ _ (fun _ => rfl)

/-- The normal section holds no `vt` line. -/
theorem vnSection_filter_vt (nso : Option (List Vec3)) :
    (vnSection nso).filter isVtLine = [] := by
  cases nso with
  | none => rfl
  | some nl => exact filter_false_map _ _ _ (fun _ => rfl)

/-- The face section holds no `vt` line. -/
theorem faceSection_filter_vt (hT hN : Bool) (off : ℕ)
    (io : Option (List ℕ)) (len : ℕ) :
    (faceSection hT hN off io len).filter isVtLine = [] := by
  cases io with
  | none => exact filter_false_map _ _ _ (fun k => faceLine_not_vt hT hN _ _ _)
  | some idx => exact filter_false_map _ _ _ (fun t => faceLine_not_vt hT hN _ _ _)

/-- The texcoord section is exactly the flipped source coordinates. -/
theorem vtSection_filter_vt (tso : Option (List Vec2)) :
    (vtSection tso).filter isVtLine
      = (tso.getD []).map fun t => ObjLine.vt t.u (1 - t.v) := by
  cases tso with
  | none => rfl
  | some ts => exact filter_true_map _ _ _ (fun _ => rfl)

/-- C7: for a primitive with a position attribute, the texcoord lines it
emits are exactly one line per source coordinate, carrying the source U
unchanged and the V component flipped to `1 − v` (and none when the
primitive has no texture coordinates). -/
theorem texcoord_v_flipped (mm : List (ℕ × String)) (off : ℕ)
    (p : Primitive) (ps : List Vec3) (h : p.positions = some ps) :
    (primObjLines mm off p).filter isVtLine
      = (p.texcoords.getD []).map fun t => ObjLine.vt t.u (1 - t.v) := by
  simp only [primObjLines, h, List.filter_append, usemtlSection_filter_vt,
    vSection_filter_vt, vnSection_filter_vt, faceSection_filter_vt,
    vtSection_filter_vt]
  simp

/-- A primitive whose single texture coordinate has `v = 0.2`. -/
def primC7 : Primitive :=
  { material := none
    positions := some [⟨0, 0, 0⟩, ⟨1, 0, 0⟩, ⟨0, 1, 0⟩]
    texcoords := some [⟨1/2, 2/10⟩]
    normals := none
    indices := some [0, 1, 2] }

/-- Witness for C7: the source coordinate `v = 0.2` appears as `0.8` in
the emitted texcoord line. -/
theorem texcoord_v_flipped_witness :
    primC7.positions = some [⟨0, 0, 0⟩, ⟨1, 0, 0⟩, ⟨0, 1, 0⟩]
    ∧ (primObjLines [] 0 primC7).filter isVtLine
        = [ObjLine.vt (1/2) (8/10)] := by
  refine ⟨rfl, ?_⟩
  rw [texcoord_v_flipped [] 0 primC7 [⟨0, 0, 0⟩, ⟨1, 0, 0⟩, ⟨0, 1, 0⟩] rfl]
  norm_num [primC7]

/-! ### Face-record indices (C1, C10) -/

/-- All numeric index slots of a face line, in written order; empty for
non-face lines. -/
def faceVertexSlots : ObjLine → List ℕ
  | ObjLine.fP a b c => [a, b, c]
  | ObjLine.fPT v1 t1 v2 t2 v3 t3 => [v1, t1, v2, t2, v3, t3]
  | ObjLine.fPN v1 n1 v2 n2 v3 n3 => [v1, n1, v2, n2, v3, n3]
  | ObjLine.fPTN v1 t1 n1 v2 t2 n2 v3 t3 n3 =>
    [v1, t1, n1, v2, t2, n2, v3, t3, n3]
  | _ => []

/-- Is this one of the four face-record encodings? -/
def isFaceLine : ObjLine → Bool
  | ObjLine.fP _ _ _ => true
  | ObjLine.fPT _ _ _ _ _ _ => true
  | ObjLine.fPN _ _ _ _ _ _ => true
  | ObjLine.fPTN _ _ _ _ _ _ _ _ _ => true
  | _ => false

/-- In every corner of a face line, do the texcoord and normal slots equal
the position slot? -/
def slotsAligned : ObjLine → Bool
  | ObjLine.fPT v1 t1 v2 t2 v3 t3 => v1 == t1 && v2 == t2 && v3 == t3
  | ObjLine.fPN v1 n1 v2 n2 v3 n3 => v1 == n1 && v2 == n2 && v3 == n3
  | ObjLine.fPTN v1 t1 n1 v2 t2 n2 v3 t3 n3 =>
    v1 == t1 && v1 == n1 && v2 == t2 && v2 == n2 && v3 == t3 && v3 == n3
  | _ => true

/-- A non-face line has no index slots. -/
theorem slots_eq_nil_of_not_face (l : ObjLine) (h : isFaceLine l = false) :
    faceVertexSlots l = [] := by
  cases l <;> first | rfl | simp [isFaceLine] at h

/-- A non-face line is trivially aligned. -/
theorem aligned_of_not_face (l : ObjLine) (h : isFaceLine l = false) :
    slotsAligned l = true := by
  cases l <;> first | rfl | simp [isFaceLine] at h

/-- Every slot of a `faceLine` is one of its three corner indices. -/
theorem mem_slots_faceLine (hT hN : Bool) (v1 v2 v3 n : ℕ)
    (h : n ∈ faceVertexSlots (faceLine hT hN v1 v2 v3)) :
    n = v1 ∨ n = v2 ∨ n = v3 := by
  cases hT <;> cases hN <;> simp [faceLine, faceVertexSlots] at h <;> tauto

/-- Function `faceLine` writes the same index into every slot of a corner. -/
theorem slotsAligned_faceLine (hT hN : Bool) (v1 v2 v3 : ℕ) :
    slotsAligned (faceLine hT hN v1 v2 v3) = true := by
  cases hT <;> cases hN <;> simp [faceLine, slotsAligned]

/-- The components of a `chunk3` triple are members of the list. -/
theorem chunk3_mem : ∀ (l : List ℕ) (t : ℕ × ℕ × ℕ), t ∈ chunk3 l →
    t.1 ∈ l ∧ t.2.1 ∈ l ∧ t.2.2 ∈ l
  | a :: b :: c :: rest, t, h => by
    simp only [chunk3] at h
    rcases List.mem_cons.mp h with h | h
    · subst h; simp
    · have ih := chunk3_mem rest t h
      refine ⟨?_, ?_, ?_⟩ <;> simp [ih.1, ih.2.1, ih.2.2]
  | [], t, h => by simp [chunk3] at h
  | [a], t, h => by simp [chunk3] at h
  | [a, b], t, h => by simp [chunk3] at h

/-- Provenance of a face-section line: it is a `faceLine` whose corner
indices come either from an index-buffer triple (each `+ 1 + off`) or
from a sequential triple `off + 3k + 1..3`. -/
theorem mem_faceSection (hT hN : Bool) (off : ℕ) (io : Option (List ℕ))
    (len : ℕ) (l : ObjLine) (hl : l ∈ faceSection hT hN off io len) :
    ∃ v1 v2 v3, l = faceLine hT hN v1 v2 v3 ∧
      ((∃ t ∈ chunk3 (io.getD []), v1 = t.1 + 1 + off
          ∧ v2 = t.2.1 + 1 + off ∧ v3 = t.2.2 + 1 + off)
       ∨ (io = none ∧ ∃ k, k < (len + 2) / 3 ∧ v1 = off + 3 * k + 1
            ∧ v2 = off + 3 * k + 2 ∧ v3 = off + 3 * k + 3)) := by
  cases io with
  | some idx =>
    simp only [faceSection] at hl
    rcases List.mem_map.mp hl with ⟨t, ht, rfl⟩
    exact ⟨_, _, _, rfl, Or.inl ⟨t, ht, rfl, rfl, rfl⟩⟩
  | none =>
    simp only [faceSection] at hl
    rcases List.mem_map.mp hl with ⟨k, hk, rfl⟩
    exact ⟨_, _, _, rfl, Or.inr ⟨rfl, k, List.mem_range.mp hk, rfl, rfl, rfl⟩⟩

/-- Lines of the `usemtl` section are not face lines. -/
theorem not_face_of_mem_usemtl (mm : List (ℕ × String)) (mo : Option ℕ)
    (l : ObjLine) (hl : l ∈ usemtlSection mm mo) : isFaceLine l = false := by
  cases mo with
  | none => simp [usemtlSection] at hl
  | some i =>
    simp [usemtlSection] at hl
    subst hl; rfl

/-- Lines of the position section are not face lines. -/
theorem not_face_of_mem_vSection (ps : List Vec3) (l : ObjLine)
    (hl : l ∈ vSection ps) : isFaceLine l = false := by
  rcases List.mem_map.mp hl with ⟨q, _, rfl⟩; rfl

/-- Lines of the texcoord section are not face lines. -/
theorem not_face_of_mem_vtSection (tso : Option (List Vec2)) (l : ObjLine)
    (hl : l ∈ vtSection tso) : isFaceLine l = false := by
  cases tso with
  | none => simp [vtSection] at hl
  | some ts =>
    rcases List.mem_map.mp hl with ⟨q, _, rfl⟩; rfl

/-- Lines of the normal section are not face lines. -/
theorem not_face_of_mem_vnSection (nso : Option (List Vec3)) (l : ObjLine)
    (hl : l ∈ vnSection nso) : isFaceLine l = false := by
  cases nso with
  | none => simp [vnSection] at hl
  | some nl =>
    rcases List.mem_map.mp hl with ⟨q, _, rfl⟩; rfl

/-- A line of a primitive body is either a non-face line or comes from the
face section of that primitive. -/
theorem mem_primObjLines_cases (mm : List (ℕ × String)) (off : ℕ)
    (p : Primitive) (l : ObjLine) (hl : l ∈ primObjLines mm off p) :
    isFaceLine l = false ∨
    (∃ ps, p.positions = some ps
      ∧ l ∈ faceSection p.texcoords.isSome p.normals.isSome off p.indices
          ps.length) := by
  unfold primObjLines at hl
  rcases List.mem_append.mp hl with h | h
  · exact Or.inl (not_face_of_mem_usemtl mm p.material l h)
  · cases hp : p.positions with
    | none => rw [hp] at h; simp at h
    | some ps =>
      rw [hp] at h
      rcases List.mem_append.mp h with h | h
      · rcases List.mem_append.mp h with h | h
        · rcases List.mem_append.mp h with h | h
          · exact Or.inl (not_face_of_mem_vSection ps l h)
          · exact Or.inl (not_face_of_mem_vtSection p.texcoords l h)
        · exact Or.inl (not_face_of_mem_vnSection p.normals l h)
      · exact Or.inr ⟨ps, rfl, h⟩

/-- Well-formedness of a primitive, per the spec data-model invariants:
index-buffer entries name vertices by position in the attribute arrays
(hence are below the vertex count), and a non-indexed triangle list has a
vertex count that is a multiple of 3. -/
def wellFormedPrim (p : Primitive) : Bool :=
  match p.indices with
  | some idx => idx.all fun j => decide (j < vcount p)
  | none => vcount p % 3 == 0

/-- Every face index emitted for a well-formed primitive whose position
array has `ps.length` vertices lies in `[off + 1, off + ps.length]`. -/
theorem primObjLines_face_bounds (mm : List (ℕ × String)) (off : ℕ)
    (p : Primitive) (ps : List Vec3) (hps : p.positions = some ps)
    (hwf : wellFormedPrim p = true) :
    ∀ l ∈ primObjLines mm off p, ∀ n ∈ faceVertexSlots l,
      off + 1 ≤ n ∧ n ≤ off + ps.length := by
  intro l hl n hn
  rcases mem_primObjLines_cases mm off p l hl with hf | ⟨ps2, hp2, hfs⟩
  · rw [slots_eq_nil_of_not_face l hf] at hn
    simp at hn
  · rw [hps] at hp2
    injection hp2 with hp2
    subst hp2
    rcases mem_faceSection _ _ _ _ _ l hfs with ⟨v1, v2, v3, rfl, hprov⟩
    have h3 := mem_slots_faceLine _ _ v1 v2 v3 n hn
    have hv : vcount p = ps.length := by simp [vcount, hps]
    rcases hprov with ⟨t, ht, e1, e2, e3⟩ | ⟨hio, k, hk, e1, e2, e3⟩
    · cases hi : p.indices with
      | none => rw [hi] at ht; simp [chunk3] at ht
      | some idx =>
        unfold wellFormedPrim at hwf
        rw [hi] at hwf ht
        simp only [List.all_eq_true, decide_eq_true_eq] at hwf
        have hc := chunk3_mem idx t (by simpa using ht)
        have b1 := hwf _ hc.1
        have b2 := hwf _ hc.2.1
        have b3 := hwf _ hc.2.2
        rw [hv] at b1 b2 b3
        rcases h3 with rfl | rfl | rfl <;> omega
    · unfold wellFormedPrim at hwf
      rw [hio] at hwf
      simp only [beq_iff_eq] at hwf
      rw [hv] at hwf
      rcases h3 with rfl | rfl | rfl <;> omega

/-- The `exportToOBJ` loop on a document with exactly two primitives. -/
theorem exportState_two (doc : Document) (p1 p2 : Primitive)
    (h : docPrims doc = [p1, p2]) :
    (exportState doc).obj
      = headerLines ++ primObjLines [] 0 p1
        ++ primObjLines (updateMaterialMap [] p1) (vcount p1) p2 := by
  rw [exportState, h]
  simp [emitPrim, initState, List.append_assoc]

/-- C1: for a document with exactly two primitives of vertex counts `A`
and `B`, the emitter writes the lines of the second primitive with running
vertex offset `A` (the vertex count of the first primitive), and every
face-record index referring to the second primitive — each corner written
as local index + 1 + offset, for indexed and sequential-triple primitives
alike — lies in `[A + 1, A + B]`, given the data-model invariants (index
entries below the vertex count; sequential consumption on a count that is
a multiple of 3). -/
theorem face_indices_offset_range (doc : Document) (p1 p2 : Primitive)
    (l1 l2 : List Vec3) (hprims : docPrims doc = [p1, p2])
    (hp1 : p1.positions = some l1) (hp2 : p2.positions = some l2)
    (hwf : wellFormedPrim p2 = true) :
    (exportState doc).obj
      = headerLines ++ primObjLines [] 0 p1
        ++ primObjLines (updateMaterialMap [] p1) l1.length p2
    ∧ ∀ l ∈ primObjLines (updateMaterialMap [] p1) l1.length p2,
        ∀ n ∈ faceVertexSlots l,
          l1.length + 1 ≤ n ∧ n ≤ l1.length + l2.length := by
  have hv : vcount p1 = l1.length := by simp [vcount, hp1]
  constructor
  · have h := exportState_two doc p1 p2 hprims
    rw [hv] at h
    exact h
  · intro l hl n hn
    exact primObjLines_face_bounds _ _ p2 l2 hp2 hwf l hl n hn

/-- First primitive of the C1/C10 example: 3 vertices, non-indexed. -/
def primW1 : Primitive :=
  { material := none
    positions := some [⟨0, 0, 0⟩, ⟨1, 0, 0⟩, ⟨0, 1, 0⟩]
    texcoords := none
    normals := none
    indices := none }

/-- Second primitive of the C1/C10 example: 3 vertices, indexed. -/
def primW2 : Primitive :=
  { material := none
    positions := some [⟨0, 0, 1⟩, ⟨1, 0, 1⟩, ⟨0, 1, 1⟩]
    texcoords := none
    normals := none
    indices := some [0, 1, 2] }

/-- Two-primitive example document. -/
def docC1 : Document := ⟨[], [], [⟨[primW1, primW2]⟩]⟩

/-- Witness for C1 at the two-primitive example document. -/
theorem face_indices_offset_range_witness :
    docPrims docC1 = [primW1, primW2]
    ∧ wellFormedPrim primW2 = true
    ∧ (∀ l ∈ primObjLines (updateMaterialMap [] primW1) 3 primW2,
        ∀ n ∈ faceVertexSlots l, 3 + 1 ≤ n ∧ n ≤ 3 + 3) := by
  refine ⟨rfl, by decide, ?_⟩
  have h := face_indices_offset_range docC1 primW1 primW2
    [⟨0, 0, 0⟩, ⟨1, 0, 0⟩, ⟨0, 1, 0⟩] [⟨0, 0, 1⟩, ⟨1, 0, 1⟩, ⟨0, 1, 1⟩]
    rfl rfl rfl (by decide)
  exact h.2

/-- Offsets the loop never advances stay at their initial value. -/
theorem foldl_keeps_aux_offsets (doc : Document) :
    ∀ (ps : List Primitive) (st : EmitState),
      ((ps.foldl (emitPrim doc) st).texCoordOffset = st.texCoordOffset)
      ∧ ((ps.foldl (emitPrim doc) st).normalOffset = st.normalOffset) := by
  intro ps
  induction ps with
  | nil => intro st; exact ⟨rfl, rfl⟩
  | cons p tl ih =>
    intro st
    simp only [List.foldl_cons]
    have h := ih (emitPrim doc st p)
    simpa [emitPrim] using h

/-- Every line of a primitive body has its per-corner slots aligned. -/
theorem primObjLines_aligned (mm : List (ℕ × String)) (off : ℕ)
    (p : Primitive) : ∀ l ∈ primObjLines mm off p, slotsAligned l = true := by
  intro l hl
  rcases mem_primObjLines_cases mm off p l hl with hf | ⟨ps, hp, hfs⟩
  · exact aligned_of_not_face l hf
  · rcases mem_faceSection _ _ _ _ _ l hfs with ⟨v1, v2, v3, rfl, h⟩
    exact slotsAligned_faceLine _ _ v1 v2 v3

/-- Alignment is preserved by the emission loop. -/
theorem foldl_obj_aligned (doc : Document) :
    ∀ (ps : List Primitive) (st : EmitState),
      (∀ l ∈ st.obj, slotsAligned l = true) →
      ∀ l ∈ (ps.foldl (emitPrim doc) st).obj, slotsAligned l = true := by
  intro ps
  induction ps with
  | nil => intro st h; exact h
  | cons p tl ih =>
    intro st h
    simp only [List.foldl_cons]
    apply ih
    intro l hl
    simp only [emitPrim] at hl
    rcases List.mem_append.mp hl with h1 | h2
    · exact h l h1
    · exact primObjLines_aligned _ _ _ l h2

/-- C10: the declared `texCoordOffset` and `normalOffset` accumulators are
never advanced (they end every conversion at their initial 0), and in
every emitted face record the texcoord and normal slots of each corner are
numerically identical to the position index of that corner. -/
theorem texnorm_offsets_unused_and_slots_equal (doc : Document) :
    (exportState doc).texCoordOffset = 0
    ∧ (exportState doc).normalOffset = 0
    ∧ ∀ l ∈ (exportState doc).obj, slotsAligned l = true := by
  refine ⟨?_, ?_, ?_⟩
  · exact (foldl_keeps_aux_offsets doc (docPrims doc) initState).1
  · exact (foldl_keeps_aux_offsets doc (docPrims doc) initState).2
  · apply foldl_obj_aligned
    intro l hl
    simp only [initState, headerLines] at hl
    rcases List.mem_cons.mp hl with rfl | hl
    · rfl
    · rcases List.mem_cons.mp hl with rfl | hl
      · rfl
      · simp at hl

/-- Witness for C10: a face line of the example document, with its slots
aligned. -/
theorem texnorm_offsets_unused_witness :
    ObjLine.fP 4 5 6 ∈ (exportState docC1).obj
    ∧ slotsAligned (ObjLine.fP 4 5 6) = true :=
  ⟨by decide,
    (texnorm_offsets_unused_and_slots_equal docC1).2.2 (ObjLine.fP 4 5 6)
      (by decide)⟩

end Image2Asset
